import Mathlib

/-!
# Verification of the spotify-mcp dispatch and resource-resolution layer

Shallow embedding of `src/spotify_mcp/spotify_api.py` (class `Client`) and
`src/spotify_mcp/server.py` (`handle_call_tool` and its helpers).

Modelling conventions:
  * Python values are modelled by the inductive `PyVal` (None, bool, int,
    str, list, dict); Python truthiness by `truthy`.
  * Python exceptions are modelled by `PyErr`; fallible code runs in
    `Except PyErr` or, when a call trace is needed, in the writer-style
    monad `Eff` which records the externally visible calls (`Event`) made
    to the remote service before the result (or the uncaught exception)
    is produced.
  * The remote service (the `spotipy` client `self.sp`), the local search
    HTTP endpoint and `json.loads` are external collaborators; they are
    modelled by the record `Env` of outcome-valued functions.  The cursor
    chain of a paginated listing is modelled as the finite list of
    successive page objects the server would serve.
  * `utils.py` is not part of the sources; its helpers are modelled from
    the spec and are marked `Modelled from the spec:` in their doc comment.
-/

/-- A Python value, as far as this layer manipulates them. -/
inductive PyVal : Type where
  | none  : PyVal
  | bool  : Bool → PyVal
  | int   : Int → PyVal
  | str   : String → PyVal
  | list  : List PyVal → PyVal
  | dict  : List (String × PyVal) → PyVal

/-- Python truthiness (`bool(v)`). -/
def truthy : PyVal → Bool
  | PyVal.none => false
  | PyVal.bool b => b
  | PyVal.int n => n != 0
  | PyVal.str s => s != ""
  | PyVal.list xs => !xs.isEmpty
  | PyVal.dict kvs => !kvs.isEmpty

mutual

/-- Structural equality on `PyVal` (Python `==` for the values this layer
compares; only scalars and strings are ever compared in the sources). -/
def pyEqb : PyVal → PyVal → Bool
  | PyVal.none, PyVal.none => true
  | PyVal.bool a, PyVal.bool b => a == b
  | PyVal.int a, PyVal.int b => a == b
  | PyVal.str a, PyVal.str b => a == b
  | PyVal.list as, PyVal.list bs => pyEqbList as bs
  | PyVal.dict as, PyVal.dict bs => pyEqbKVs as bs
  | _, _ => false

/-- Elementwise equality of Python lists. -/
def pyEqbList : List PyVal → List PyVal → Bool
  | [], [] => true
  | a :: as, b :: bs => pyEqb a b && pyEqbList as bs
  | _, _ => false

/-- Entrywise equality of Python dicts (order-sensitive; the sources never
compare dicts). -/
def pyEqbKVs : List (String × PyVal) → List (String × PyVal) → Bool
  | [], [] => true
  | (k1, v1) :: as, (k2, v2) :: bs => k1 == k2 && pyEqb v1 v2 && pyEqbKVs as bs
  | _, _ => false

end

/-- Assoc-list lookup used for dict access. -/
def dictLookup : List (String × PyVal) → String → Option PyVal
  | [], _ => Option.none
  | (k, v) :: rest, key => if k = key then Option.some v else dictLookup rest key

/-- Dict update (`d[k] = v`): replaces in place or appends, like Python. -/
def dictStore : List (String × PyVal) → String → PyVal → List (String × PyVal)
  | [], key, v => [(key, v)]
  | (k, w) :: rest, key, v =>
    if k = key then (key, v) :: rest else (k, w) :: dictStore rest key v

/-- Dict removal, for `d.pop(k)`. -/
def dictRemove : List (String × PyVal) → String → List (String × PyVal)
  | [], _ => []
  | (k, w) :: rest, key => if k = key then rest else (k, w) :: dictRemove rest key

/-- A Python exception.  `spotifyException` models `spotipy.SpotifyException`,
`assertionError` models `AssertionError`, and `exception` collapses every
other exception class (all of them derive from `Exception`). -/
inductive PyErr : Type where
  | spotifyException : String → PyErr
  | exception : String → PyErr
  | assertionError : String → PyErr

/-- `str(e)` on an exception. -/
def pyErrStr : PyErr → String
  | PyErr.spotifyException m => m
  | PyErr.exception m => m
  | PyErr.assertionError m => m

/-- Externally visible calls to the remote service that the claims observe. -/
inductive Event : Type where
  | startPlaybackCall : PyVal → PyVal → PyVal → Event
  | addToQueueCall : PyVal → PyVal → Event
  | remoteSearchCall : PyVal → PyVal → Event

/-- The effect monad of the embedding: a trace of remote calls made so far
together with the result, or the exception that is propagating. -/
structure Eff (α : Type) : Type where
  log : List Event
  out : Except PyErr α

def Eff.pureE {α : Type} (a : α) : Eff α := ⟨[], Except.ok a⟩

def Eff.bindE {α β : Type} (x : Eff α) (f : α → Eff β) : Eff β :=
  match x.out with
  | Except.ok a => let y := f a; ⟨x.log ++ y.log, y.out⟩
  | Except.error e => ⟨x.log, Except.error e⟩

instance : Monad Eff where
  pure := Eff.pureE
  bind := Eff.bindE

/-- Lift a traceless fallible computation. -/
def liftE {α : Type} (x : Except PyErr α) : Eff α := ⟨[], x⟩

/-- Raise an exception (`raise e`). -/
def raiseE {α : Type} (e : PyErr) : Eff α := ⟨[], Except.error e⟩

/-- An instrumented call to the remote service: records the event, then
yields the outcome the environment assigns to the call. -/
def effCall {α : Type} (ev : Event) (r : Except PyErr α) : Eff α := ⟨[ev], r⟩

/-- `try: x except Exception: h` — the trace of calls made before the
exception was raised is kept. -/
def tryE {α : Type} (x : Eff α) (h : PyErr → Eff α) : Eff α :=
  match x.out with
  | Except.ok _ => x
  | Except.error e => let y := h e; ⟨x.log ++ y.log, y.out⟩

/-! ## Python primitive operations on `PyVal` -/

/-- `v.get(k, d)` — dict method; raises `AttributeError` on any other type. -/
def pyGetE (v : PyVal) (k : String) (d : PyVal) : Except PyErr PyVal :=
  match v with
  | PyVal.dict kvs => Except.ok ((dictLookup kvs k).getD d)
  | PyVal.list _ =>
    Except.error (PyErr.exception "AttributeError: 'list' object has no attribute 'get'")
  | _ => Except.error (PyErr.exception "AttributeError: object has no attribute 'get'")

/-- Total `.get` with default, used only inside the spec-modelled `utils`
normalizers (which are only ever applied to dicts). -/
def pyGetD (v : PyVal) (k : String) (d : PyVal) : PyVal :=
  match v with
  | PyVal.dict kvs => (dictLookup kvs k).getD d
  | _ => d

/-- `v[k]` subscription by key; `KeyError` when absent, `TypeError` on
non-dicts. -/
def pyIndexE (v : PyVal) (k : String) : Except PyErr PyVal :=
  match v with
  | PyVal.dict kvs =>
    match dictLookup kvs k with
    | Option.some x => Except.ok x
    | Option.none => Except.error (PyErr.exception ("KeyError: " ++ k))
  | _ => Except.error (PyErr.exception "TypeError: object is not subscriptable")

/-- `v[k] = x` on a dict. -/
def pySetE (v : PyVal) (k : String) (x : PyVal) : Except PyErr PyVal :=
  match v with
  | PyVal.dict kvs => Except.ok (PyVal.dict (dictStore kvs k x))
  | _ => Except.error (PyErr.exception "TypeError: object does not support item assignment")

/-- `v.pop(k)` on a dict: the popped value and the shrunken dict. -/
def pyPopE (v : PyVal) (k : String) : Except PyErr (PyVal × PyVal) :=
  match v with
  | PyVal.dict kvs =>
    match dictLookup kvs k with
    | Option.some x => Except.ok (x, PyVal.dict (dictRemove kvs k))
    | Option.none => Except.error (PyErr.exception ("KeyError: " ++ k))
  | _ => Except.error (PyErr.exception "AttributeError: object has no attribute 'pop'")

/-- `lst[0]` indexing into a list. -/
def pyFirstE (v : PyVal) : Except PyErr PyVal :=
  match v with
  | PyVal.list (x :: _) => Except.ok x
  | PyVal.list [] => Except.error (PyErr.exception "IndexError: list index out of range")
  | _ => Except.error (PyErr.exception "TypeError: object is not subscriptable")

/-- Iteration (`for x in v`): lists yield elements, dicts yield keys,
strings yield one-character strings; everything else raises `TypeError`. -/
def pyIterE (v : PyVal) : Except PyErr (List PyVal) :=
  match v with
  | PyVal.list xs => Except.ok xs
  | PyVal.dict kvs => Except.ok (kvs.map (fun p => PyVal.str p.fst))
  | PyVal.str s => Except.ok (s.data.map (fun c => PyVal.str (String.mk [c])))
  | _ => Except.error (PyErr.exception "TypeError: object is not iterable")

/-- `len(v)`. -/
def pyLenE (v : PyVal) : Except PyErr Int :=
  match v with
  | PyVal.list xs => Except.ok (Int.ofNat xs.length)
  | PyVal.dict kvs => Except.ok (Int.ofNat kvs.length)
  | PyVal.str s => Except.ok (Int.ofNat s.data.length)
  | _ => Except.error (PyErr.exception "TypeError: object has no len")

/-- Is the value a Python list (`isinstance(v, list)`). -/
def isPyList : PyVal → Bool
  | PyVal.list _ => true
  | _ => false

/-- Is the value a Python str (`isinstance(v, str)`). -/
def isPyStr : PyVal → Bool
  | PyVal.str _ => true
  | _ => false

/-- Length of a `PyVal.list`, zero otherwise (used after an `isinstance`
guard, so never on other shapes). -/
def pyListLen : PyVal → Nat
  | PyVal.list xs => xs.length
  | _ => 0

/-! ## String helpers (kept structural so that the kernel reduces them) -/

/-- `s[:n]` by code points. -/
def strTake (n : Nat) (s : String) : String := String.mk (s.data.take n)

/-- `s[n:]` by code points. -/
def strDrop (n : Nat) (s : String) : String := String.mk (s.data.drop n)

/-- `s.startswith(p)`. -/
def strStartsWith (s p : String) : Bool := p.data.isPrefixOf s.data

/-- Auxiliary for `pySplit`: splits on a separator character. -/
def splitCharAux (c : Char) : List Char → List Char → List String
  | [], acc => [String.mk acc.reverse]
  | x :: xs, acc =>
    if x == c then String.mk acc.reverse :: splitCharAux c xs []
    else splitCharAux c xs (x :: acc)

/-- `s.split(c)` for a one-character separator (the sources split on
`":"` and `"/"` only). -/
def pySplit (s : String) (c : Char) : List String := splitCharAux c s.data []

/-- Substring containment (`pat in s` for strings). -/
def strContainsSub (pat : String) : List Char → Bool
  | [] => pat.data.isEmpty
  | l => pat.data.isPrefixOf l ||
    (match l with
     | [] => false
     | _ :: xs => strContainsSub pat xs)

/-- `pat in v`: substring test on strings, membership on lists, key test on
dicts; `TypeError` otherwise. -/
def pyInE (pat : String) (v : PyVal) : Except PyErr Bool :=
  match v with
  | PyVal.str s => Except.ok (strContainsSub pat s.data)
  | PyVal.list xs => Except.ok (xs.any (fun x => pyEqb x (PyVal.str pat)))
  | PyVal.dict kvs => Except.ok ((dictLookup kvs pat).isSome)
  | _ => Except.error (PyErr.exception "TypeError: argument is not iterable")

/-- `v.startswith(p)`; raises `AttributeError` on non-strings. -/
def pyStartswithE (v : PyVal) (p : String) : Except PyErr Bool :=
  match v with
  | PyVal.str s => Except.ok (strStartsWith s p)
  | _ => Except.error (PyErr.exception "AttributeError: object has no attribute 'startswith'")

/-- `v.split(c)`; raises `AttributeError` on non-strings. -/
def pySplitE (v : PyVal) (c : Char) : Except PyErr (List String) :=
  match v with
  | PyVal.str s => Except.ok (pySplit s c)
  | _ => Except.error (PyErr.exception "AttributeError: object has no attribute 'split'")

/-- Accumulating auxiliary for `parseDigits`. -/
def parseDigitsAux : List Char → Nat → Option Nat
  | [], acc => Option.some acc
  | c :: cs, acc =>
    if c.isDigit then parseDigitsAux cs (acc * 10 + (c.toNat - '0'.toNat))
    else Option.none

/-- Auxiliary digit parser for `int(str)`. -/
def parseDigits : List Char → Option Nat
  | [] => Option.none
  | cs => parseDigitsAux cs 0

/-- `int(v)`: ints pass through, bools coerce, strings parse (optional
sign), everything else raises. -/
def pyIntE (v : PyVal) : Except PyErr Int :=
  match v with
  | PyVal.int n => Except.ok n
  | PyVal.bool b => Except.ok (if b then 1 else 0)
  | PyVal.str s =>
    (match s.data with
     | '-' :: rest =>
       (match parseDigits rest with
        | Option.some n => Except.ok (-(Int.ofNat n))
        | Option.none => Except.error (PyErr.exception ("ValueError: invalid literal for int: " ++ s)))
     | cs =>
       (match parseDigits cs with
        | Option.some n => Except.ok (Int.ofNat n)
        | Option.none => Except.error (PyErr.exception ("ValueError: invalid literal for int: " ++ s))))
  | _ => Except.error (PyErr.exception "TypeError: int() argument must be a string or a number")

/-- JSON string escaping (quote and backslash). -/
def jsonEscapeChars : List Char → List Char
  | [] => []
  | c :: cs =>
    if c == '"' then '\\' :: '"' :: jsonEscapeChars cs
    else if c == '\\' then '\\' :: '\\' :: jsonEscapeChars cs
    else c :: jsonEscapeChars cs

/-- JSON string escaping. -/
def jsonEscape (s : String) : String := String.mk (jsonEscapeChars s.data)

mutual

/-- `json.dumps(v)` (compact; the `indent=2` pretty-printing of the source
only affects whitespace and no claim depends on it). -/
def jsonDumps : PyVal → String
  | PyVal.none => "null"
  | PyVal.bool true => "true"
  | PyVal.bool false => "false"
  | PyVal.int n => toString n
  | PyVal.str s => "\"" ++ jsonEscape s ++ "\""
  | PyVal.list xs => "[" ++ jsonDumpsList xs ++ "]"
  | PyVal.dict kvs => "\x7b" ++ jsonDumpsKVs kvs ++ "\x7d"

/-- Comma-joined serialization of list elements. -/
def jsonDumpsList : List PyVal → String
  | [] => ""
  | [x] => jsonDumps x
  | x :: xs => jsonDumps x ++ ", " ++ jsonDumpsList xs

/-- Comma-joined serialization of dict entries. -/
def jsonDumpsKVs : List (String × PyVal) → String
  | [] => ""
  | [(k, v)] => "\"" ++ jsonEscape k ++ "\": " ++ jsonDumps v
  | (k, v) :: kvs => "\"" ++ jsonEscape k ++ "\": " ++ jsonDumps v ++ ", " ++ jsonDumpsKVs kvs

end

/-- `str(v)`, as interpolated into f-strings. -/
def pyStr : PyVal → String
  | PyVal.none => "None"
  | PyVal.bool true => "True"
  | PyVal.bool false => "False"
  | PyVal.int n => toString n
  | PyVal.str s => s
  | PyVal.list xs => jsonDumps (PyVal.list xs)
  | PyVal.dict kvs => jsonDumps (PyVal.dict kvs)

/-- `", ".join(xs)` where every element must be a str (`TypeError`
otherwise, as in Python). -/
def pyJoinE (sep : String) : List PyVal → Except PyErr String
  | [] => Except.ok ""
  | [PyVal.str s] => Except.ok s
  | PyVal.str s :: rest => do
    let tail ← pyJoinE sep rest
    Except.ok (s ++ sep ++ tail)
  | _ => Except.error (PyErr.exception "TypeError: sequence item: expected str instance")

/-- `"\n".join` over plain strings. -/
def joinLines : List String → String
  | [] => ""
  | [x] => x
  | x :: xs => x ++ "\n" ++ joinLines xs

/-! ## The external collaborators -/

/-- Outcome of the HTTP request to the configured local search endpoint in
`Client.smart_search`: either a `requests.RequestException` (timeout,
connection error, or the non-2xx raised by `raise_for_status`) or the
decoded JSON body. -/
inductive LocalResult : Type where
  | requestError : String → LocalResult
  | response : PyVal → LocalResult

/-- The external world of one tool call: the spotipy client `self.sp`
(remote API black box), the local search endpoint, `json.loads`, the
deployment configuration, and the client state `self.username` as it
stands when the call begins.  Paginated listings (`sp.playlist_items` /
`sp.album_tracks` followed by `sp.next`) are modelled as the finite list
of successive page objects the cursor chain serves. -/
structure Env : Type where
  username : PyVal
  spotify_country : Option String
  auth : Except PyErr Unit
  current_user : Except PyErr PyVal
  current_user_playing_track : Except PyErr PyVal
  current_playback : Except PyErr PyVal
  sp_track : PyVal → Except PyErr PyVal
  sp_playlist : PyVal → Except PyErr PyVal
  sp_album : PyVal → Except PyErr PyVal
  sp_artist : PyVal → Except PyErr PyVal
  sp_search : PyVal → PyVal → PyVal → Option String → Except PyErr PyVal
  local_search : PyVal → PyVal → LocalResult
  sp_playlist_items : PyVal → Except PyErr (List PyVal)
  sp_album_tracks : PyVal → Except PyErr (List PyVal)
  sp_artist_top_tracks : PyVal → PyVal → Except PyErr PyVal
  sp_add_to_queue : PyVal → PyVal → Except PyErr PyVal
  sp_devices : Except PyErr PyVal
  sp_queue : Except PyErr PyVal
  sp_start_playback : PyVal → PyVal → PyVal → Except PyErr PyVal
  sp_pause_playback : PyVal → Except PyErr PyVal
  sp_next_track : Except PyErr PyVal
  sp_current_user_playlists : Except PyErr PyVal
  sp_playlist_add_items : PyVal → PyVal → PyVal → Except PyErr PyVal
  sp_playlist_remove_items : PyVal → PyVal → Except PyErr PyVal
  sp_playlist_change_details : PyVal → PyVal → PyVal → Except PyErr PyVal
  json_loads : String → Except PyErr PyVal

/-! ## Spec-modelled `utils` helpers (utils.py is not under src/) -/

/-- Modelled from the spec: `utils.parse_track` (utils.py is not in src/).
Spec section 3, TrackSummary: `(uri, name, artists, durationMs, album?)` —
an immutable normalized snapshot built from the raw item. -/
def parse_track (item : PyVal) : PyVal :=
  PyVal.dict [("uri", pyGetD item "uri" PyVal.none),
              ("name", pyGetD item "name" PyVal.none),
              ("artists", pyGetD item "artists" PyVal.none),
              ("duration_ms", pyGetD item "duration_ms" PyVal.none),
              ("album", pyGetD item "album" PyVal.none)]

/-- Modelled from the spec: `utils.parse_tracks` (utils.py is not in src/).
Normalizes a playlist page's raw items to TrackSummary snapshots in order,
unwrapping the playlist-item wrapper and skipping null entries
(spec section 4.2: tolerate individually null/missing track entries). -/
def parse_tracks (items : List PyVal) : List PyVal :=
  items.filterMap (fun it =>
    let tr := pyGetD it "track" it
    if truthy tr then Option.some (parse_track tr) else Option.none)

/-- Modelled from the spec: `utils.parse_playlist` (utils.py is not in
src/).  Spec section 3, CollectionInfo for playlists:
`(type, name, uri, owner, tracksTotal, isOwnedByCurrentUser)`. -/
def parse_playlist (p : PyVal) (username : PyVal) : PyVal :=
  PyVal.dict [("type", PyVal.str "playlist"),
              ("name", pyGetD p "name" PyVal.none),
              ("id", pyGetD p "id" PyVal.none),
              ("owner", pyGetD p "owner" PyVal.none),
              ("total_tracks", pyGetD p "total_tracks" PyVal.none),
              ("user_is_owner", PyVal.bool (pyEqb (pyGetD p "owner" PyVal.none) username))]

/-- Modelled from the spec: `utils.parse_search_results` (utils.py is not
in src/).  Spec section 3, SearchResultSet: a mapping from the requested
item-kind-plural key to the ordered normalized items; modelled as passing
the remote response's entry for the requested kind through under that key
(comma-joined kind lists keep only the first kind). -/
def parse_search_results (resp : PyVal) (qtype : PyVal) (_username : PyVal) : PyVal :=
  PyVal.dict [((pySplit (pyStr qtype) ',').headD "" ++ "s",
               pyGetD resp ((pySplit (pyStr qtype) ',').headD "" ++ "s") (PyVal.list []))]

/-- Modelled from the spec: `utils.parse_local_documents` (utils.py is not
in src/).  Spec section 4.3: normalize each local document for the
requested kind into the SearchResultSet shape `(items, total)`. -/
def parse_local_documents (documents : PyVal) (qtype : PyVal) : PyVal :=
  PyVal.dict [(pyStr qtype ++ "s",
               PyVal.dict [("items", documents), ("total", PyVal.int (Int.ofNat (pyListLen documents)))])]

/-! ## The Resource Client (`spotify_api.Client`) -/

/-- Translation of `Client._extract_id_from_uri` (spotify_api.py lines
300-317).  The `urllib.parse.urlparse(...).path` of the web-URL branch is
modelled from the spec (section 4.1): the path after the host. -/
def extract_id_from_uri (uri : PyVal) : Except PyErr String :=
  match uri with
  | PyVal.str s =>
    if strStartsWith s "spotify:" then
      Except.ok ((pySplit s ':').getLastD "")
    else if strStartsWith s "http" then
      Except.ok ((pySplit s '/').getLastD "")
    else Except.ok s
  | _ => Except.error (PyErr.exception "AttributeError: object has no attribute 'startswith'")

/-- The lookup attempted inside `Client.is_valid_track`'s `try` block
(spotify_api.py lines 106-109). -/
def is_valid_track_attempt (env : Env) (spotify_uri : PyVal) : Except PyErr PyVal := do
  let track_id ← extract_id_from_uri spotify_uri
  env.sp_track (PyVal.str track_id)

/-- Translation of `Client.is_valid_track` (spotify_api.py lines 104-111):
returns `True` when the lookup succeeds, `False` on any exception. -/
def is_valid_track (env : Env) (spotify_uri : PyVal) : Except PyErr Bool :=
  match is_valid_track_attempt env spotify_uri with
  | Except.ok _ => Except.ok true
  | Except.error _ => Except.ok false

/-- The lookup attempted inside `Client.is_valid_playlist`'s `try` block
(spotify_api.py lines 115-118). -/
def is_valid_playlist_attempt (env : Env) (spotify_uri : PyVal) : Except PyErr PyVal := do
  let playlist_id ← extract_id_from_uri spotify_uri
  env.sp_playlist (PyVal.str playlist_id)

/-- Translation of `Client.is_valid_playlist` (spotify_api.py lines
113-120). -/
def is_valid_playlist (env : Env) (spotify_uri : PyVal) : Except PyErr Bool :=
  match is_valid_playlist_attempt env spotify_uri with
  | Except.ok _ => Except.ok true
  | Except.error _ => Except.ok false

/-- The lookup attempted inside `Client.is_valid_album`'s `try` block
(spotify_api.py lines 124-127). -/
def is_valid_album_attempt (env : Env) (spotify_uri : PyVal) : Except PyErr PyVal := do
  let album_id ← extract_id_from_uri spotify_uri
  env.sp_album (PyVal.str album_id)

/-- Translation of `Client.is_valid_album` (spotify_api.py lines 122-129). -/
def is_valid_album (env : Env) (spotify_uri : PyVal) : Except PyErr Bool :=
  match is_valid_album_attempt env spotify_uri with
  | Except.ok _ => Except.ok true
  | Except.error _ => Except.ok false

/-- The lookup attempted inside `Client.is_valid_artist`'s `try` block
(spotify_api.py lines 133-136). -/
def is_valid_artist_attempt (env : Env) (spotify_uri : PyVal) : Except PyErr PyVal := do
  let artist_id ← extract_id_from_uri spotify_uri
  env.sp_artist (PyVal.str artist_id)

/-- Translation of `Client.is_valid_artist` (spotify_api.py lines 131-138). -/
def is_valid_artist (env : Env) (spotify_uri : PyVal) : Except PyErr Bool :=
  match is_valid_artist_attempt env spotify_uri with
  | Except.ok _ => Except.ok true
  | Except.error _ => Except.ok false

/-- `[artist['name'] for artist in track['artists']]`. -/
def artist_names : List PyVal → Except PyErr (List PyVal)
  | [] => Except.ok []
  | a :: rest => do
    let n ← pyIndexE a "name"
    let tail ← artist_names rest
    Except.ok (n :: tail)

/-- Per-item body of the page loop in the first `Client.get_playlist_tracks`
definition (spotify_api.py lines 147-158): skip null/track-less items,
otherwise build the track dict. -/
def playlist_page_items : List PyVal → Except PyErr (List PyVal)
  | [] => Except.ok []
  | item :: rest => do
    let keep ←
      (if truthy item then do
        let hasTrack ← pyInE "track" item
        if hasTrack then do
          let tr ← pyIndexE item "track"
          if truthy tr then do
            let uri ← pyIndexE tr "uri"
            let nm ← pyIndexE tr "name"
            let arts ← pyIndexE tr "artists"
            let artElems ← pyIterE arts
            let names ← artist_names artElems
            let dur ← pyIndexE tr "duration_ms"
            let hasAlbum ← pyInE "album" tr
            let alb ←
              (if hasAlbum then do
                let a ← pyIndexE tr "album"
                pyIndexE a "name"
              else Except.ok PyVal.none)
            Except.ok [PyVal.dict [("uri", uri), ("name", nm), ("artists", PyVal.list names),
                                   ("duration_ms", dur), ("album", alb)]]
          else Except.ok []
        else Except.ok []
      else Except.ok [])
    let tail ← playlist_page_items rest
    Except.ok (keep ++ tail)

/-- The `while results:` pagination loop of the first
`Client.get_playlist_tracks` definition (spotify_api.py lines 146-164):
collect the page's items, then follow `results['next']` through the cursor
chain; an empty chain stands for `sp.next` returning `None`. -/
def playlist_pages_walk : List PyVal → Except PyErr (List PyVal)
  | [] => Except.ok []
  | page :: rest => do
    let items ← pyIndexE page "items"
    let elems ← pyIterE items
    let tracks ← playlist_page_items elems
    let nxt ← pyIndexE page "next"
    if truthy nxt then do
      let tail ← playlist_pages_walk rest
      Except.ok (tracks ++ tail)
    else Except.ok tracks

/-- Translation of the FIRST definition of `Client.get_playlist_tracks`
(spotify_api.py lines 140-166), the paginating one.  In Python this
definition is dead: the second definition of the same name at line 449
shadows it, because the later assignment in the class body wins. -/
def get_playlist_tracks_shadowed (env : Env) (playlist_uri : PyVal) : Except PyErr (List PyVal) := do
  let playlist_id ← extract_id_from_uri playlist_uri
  let chain ← env.sp_playlist_items (PyVal.str playlist_id)
  playlist_pages_walk chain

/-- Per-track body of the page loop in `Client.get_album_tracks`
(spotify_api.py lines 175-183). -/
def album_page_items : List PyVal → Except PyErr (List PyVal)
  | [] => Except.ok []
  | track :: rest => do
    let uri ← pyIndexE track "uri"
    let nm ← pyIndexE track "name"
    let arts ← pyIndexE track "artists"
    let artElems ← pyIterE arts
    let names ← artist_names artElems
    let dur ← pyIndexE track "duration_ms"
    let tn ← pyIndexE track "track_number"
    let tail ← album_page_items rest
    Except.ok (PyVal.dict [("uri", uri), ("name", nm), ("artists", PyVal.list names),
                           ("duration_ms", dur), ("track_number", tn)] :: tail)

/-- The `while results:` pagination loop of `Client.get_album_tracks`
(spotify_api.py lines 174-189). -/
def album_pages_walk : List PyVal → Except PyErr (List PyVal)
  | [] => Except.ok []
  | page :: rest => do
    let items ← pyIndexE page "items"
    let elems ← pyIterE items
    let tracks ← album_page_items elems
    let nxt ← pyIndexE page "next"
    if truthy nxt then do
      let tail ← album_pages_walk rest
      Except.ok (tracks ++ tail)
    else Except.ok tracks

/-- Translation of `Client.get_album_tracks` (spotify_api.py lines
168-191). -/
def get_album_tracks (env : Env) (album_uri : PyVal) : Except PyErr PyVal := do
  let album_id ← extract_id_from_uri album_uri
  let chain ← env.sp_album_tracks (PyVal.str album_id)
  let tracks ← album_pages_walk chain
  Except.ok (PyVal.list tracks)

/-- Per-track body of the loop in `Client.get_artist_top_tracks`
(spotify_api.py lines 206-215). -/
def top_track_items : List PyVal → Except PyErr (List PyVal)
  | [] => Except.ok []
  | track :: rest => do
    let uri ← pyIndexE track "uri"
    let nm ← pyIndexE track "name"
    let arts ← pyIndexE track "artists"
    let artElems ← pyIterE arts
    let names ← artist_names artElems
    let dur ← pyIndexE track "duration_ms"
    let hasAlbum ← pyInE "album" track
    let alb ←
      (if hasAlbum then do
        let a ← pyIndexE track "album"
        pyIndexE a "name"
      else Except.ok PyVal.none)
    let pop ← pyIndexE track "popularity"
    let tail ← top_track_items rest
    Except.ok (PyVal.dict [("uri", uri), ("name", nm), ("artists", PyVal.list names),
                           ("duration_ms", dur), ("album", alb), ("popularity", pop)] :: tail)

/-- Translation of `Client.get_artist_top_tracks` (spotify_api.py lines
193-217): the market is the user profile's country, falling back to "US"
on any failure (bare `except`). -/
def get_artist_top_tracks (env : Env) (artist_uri : PyVal) : Except PyErr PyVal := do
  let artist_id ← extract_id_from_uri artist_uri
  let market : PyVal :=
    match (do
      let user_info ← env.current_user
      pyIndexE user_info "country" : Except PyErr PyVal) with
    | Except.ok m => m
    | Except.error _ => PyVal.str "US"
  let results ← env.sp_artist_top_tracks (PyVal.str artist_id) market
  let trs ← pyIndexE results "tracks"
  let elems ← pyIterE trs
  let tracks ← top_track_items elems
  Except.ok (PyVal.list tracks)

/-- Translation of the FIRST definition of `Client.add_to_queue`
(spotify_api.py lines 219-234), the one with the single device retry.  In
Python this definition is dead: the second definition of the same name at
line 405 shadows it. -/
def add_to_queue_shadowed (env : Env) (spotify_uri : PyVal) : Eff Bool :=
  tryE
    (do
      let _ ← effCall (Event.addToQueueCall spotify_uri PyVal.none)
                (env.sp_add_to_queue spotify_uri PyVal.none)
      pure true)
    (fun _ => do
      let devices ← liftE env.sp_devices
      let retry ←
        (if truthy devices then do
          let dl ← liftE (pyIndexE devices "devices")
          let n ← liftE (pyLenE dl)
          pure (decide (0 < n))
        else pure false)
      if retry then do
        let dl ← liftE (pyIndexE devices "devices")
        let d0 ← liftE (pyFirstE dl)
        let device_id ← liftE (pyIndexE d0 "id")
        let _ ← effCall (Event.addToQueueCall spotify_uri device_id)
                  (env.sp_add_to_queue spotify_uri device_id)
        pure true
      else
        raiseE (PyErr.exception "No active Spotify device found. Please open Spotify on a device first."))

/-- Modelled from the spec: the `utils.validate` decorator (utils.py is not
in src/).  Per spec section 6 the core only calls an
`isAuthValid()/refreshAuth()` capability before the wrapped method runs;
`env.auth` is that step's outcome, and the decorator's `device` keyword
keeps its Python default of `None`. -/
def validate_step (env : Env) : Eff Unit := liftE env.auth

/-- Translation of the SECOND definition of `Client.add_to_queue`
(spotify_api.py lines 405-411), the effective one, which shadows the
retrying first definition: a single `sp.add_to_queue(track_id, None)`
call whose failure propagates. -/
def add_to_queue (env : Env) (track_id : PyVal) : Eff PyVal := do
  validate_step env
  effCall (Event.addToQueueCall track_id PyVal.none)
    (env.sp_add_to_queue track_id PyVal.none)

/-- Translation of `Client.get_current_track` (spotify_api.py lines
339-360); the `except` clause only logs and re-raises, so it is
transparent. -/
def get_current_track (env : Env) : Eff PyVal := do
  let current ← liftE env.current_user_playing_track
  if !truthy current then pure PyVal.none
  else do
    let cpt ← liftE (pyGetE current "currently_playing_type" PyVal.none)
    if !pyEqb cpt (PyVal.str "track") then pure PyVal.none
    else do
      let item ← liftE (pyIndexE current "item")
      let track_info := parse_track item
      let hasIp ← liftE (pyInE "is_playing" current)
      if hasIp then do
        let ip ← liftE (pyIndexE current "is_playing")
        liftE (pySetE track_info "is_playing" ip)
      else pure track_info

/-- Translation of `Client.is_track_playing` (spotify_api.py lines
430-437). -/
def is_track_playing (env : Env) : Eff Bool := do
  let curr ← get_current_track env
  if !truthy curr then pure false
  else do
    let ip ← liftE (pyGetE curr "is_playing" PyVal.none)
    if truthy ip then pure true else pure false

/-- The tail of `Client.start_playback` after the resume checks
(spotify_api.py lines 377-393): choose `uris` vs `context_uri` and issue
the remote call (the validate decorator's `device` is `None`). -/
def start_playback_rest (env : Env) (spotify_uri : PyVal) : Eff PyVal := do
  let p ←
    (if !pyEqb spotify_uri PyVal.none then do
      let sw ← liftE (pyStartswithE spotify_uri "spotify:track:")
      if sw then pure (PyVal.list [spotify_uri], PyVal.none)
      else pure (PyVal.none, spotify_uri)
    else pure ((PyVal.none : PyVal), (PyVal.none : PyVal)))
  effCall (Event.startPlaybackCall p.fst p.snd PyVal.none)
    (env.sp_start_playback p.fst p.snd PyVal.none)

/-- Translation of `Client.start_playback` (spotify_api.py lines 362-396);
its `except` clause only logs and re-raises. -/
def start_playback (env : Env) (spotify_uri : PyVal) : Eff PyVal := do
  validate_step env
  if !truthy spotify_uri then do
    let playing ← is_track_playing env
    if playing then pure PyVal.none
    else do
      let ct ← get_current_track env
      if !truthy ct then
        raiseE (PyErr.exception "No track_id provided and no current playback to resume.")
      else start_playback_rest env spotify_uri
  else start_playback_rest env spotify_uri

/-- Translation of `Client.pause_playback` (spotify_api.py lines 398-403). -/
def pause_playback (env : Env) : Eff PyVal := do
  validate_step env
  let playback ← liftE env.current_playback
  let ip ←
    (if truthy playback then do
      let v ← liftE (pyGetE playback "is_playing" PyVal.none)
      pure (truthy v)
    else pure false)
  if ip then do
    let _ ← liftE (env.sp_pause_playback PyVal.none)
    pure PyVal.none
  else pure PyVal.none

/-- The `for _ in range(n)` loop of `Client.skip_track`. -/
def skip_track_loop (env : Env) : Nat → Eff PyVal
  | 0 => pure PyVal.none
  | Nat.succ k => do
    let _ ← liftE env.sp_next_track
    skip_track_loop env k

/-- Translation of `Client.skip_track` (spotify_api.py lines 549-552). -/
def skip_track (env : Env) (n : Int) : Eff PyVal := skip_track_loop env n.toNat

/-- Translation of `Client.set_username` (spotify_api.py lines 100-102):
the value assigned to `self.username`. -/
def set_username_value (env : Env) : Eff PyVal := do
  validate_step env
  let cu ← liftE env.current_user
  liftE (pyIndexE cu "display_name")

/-- Modelled from the spec: the `utils.ensure_username` decorator (utils.py
is not in src/).  Spec section 3: the username fact is lazily fetched once
and then reused; `env.username` is the cached state when the call begins. -/
def ensure_username (env : Env) : Eff PyVal :=
  match env.username with
  | PyVal.none => set_username_value env
  | u => pure u

/-- The local-results branch of `Client.smart_search` (spotify_api.py
lines 55-72), entered only when `local_data` is truthy, a Python list and
non-empty.  It immediately evaluates `local_data.get("documents", [])`,
which on a list raises `AttributeError`; the remaining lines (translated
below it) are therefore unreachable, including the calls to the
nonexistent attributes `self.parse_track` / `self.parse_playlist`, which
would themselves raise `AttributeError`.  Returns `some r` for
`return local_results` and `none` when control falls through to the
online fallback. -/
def smart_search_local_branch (local_data : PyVal) (qtype : PyVal) : Eff (Option PyVal) := do
  let documents ← liftE (pyGetE local_data "documents" (PyVal.list []))
  if truthy documents then do
    let local_results := parse_local_documents documents qtype
    if truthy local_results then do
      let hasTracks ← liftE (pyInE "tracks" local_results)
      if hasTracks then
        raiseE (PyErr.exception "AttributeError: 'Client' object has no attribute 'parse_track'")
      else do
        let hasPlaylists ← liftE (pyInE "playlists" local_results)
        if hasPlaylists then
          raiseE (PyErr.exception "AttributeError: 'Client' object has no attribute 'parse_playlist'")
        else pure (Option.some local_results)
    else pure Option.none
  else pure Option.none

/-- Translation of `Client.smart_search` (spotify_api.py lines 36-77).
`selfUsername` is `self.username` at the time of the call (used by the
online fallback's normalization). -/
def smart_search (env : Env) (selfUsername : PyVal) (query qtype limit : PyVal) : Eff PyVal := do
  let local_data : PyVal :=
    match env.local_search query qtype with
    | LocalResult.requestError _ => PyVal.none
    | LocalResult.response v => v
  let shortcut ←
    (if truthy local_data && isPyList local_data && decide (0 < pyListLen local_data) then
      smart_search_local_branch local_data qtype
    else pure Option.none)
  match shortcut with
  | Option.some r => pure r
  | Option.none => do
    let online ← effCall (Event.remoteSearchCall query qtype)
                   (env.sp_search query qtype limit env.spotify_country)
    pure (parse_search_results online qtype selfUsername)

/-- Translation of `Client.search` (spotify_api.py lines 318-330): ensure
the username is known (`set_username` when `self.username is None`), then
delegate to `smart_search`. -/
def client_search (env : Env) (query qtype limit : PyVal) : Eff PyVal := do
  validate_step env
  let uname ←
    (match env.username with
     | PyVal.none => set_username_value env
     | u => pure u)
  smart_search env uname query qtype limit

/-- Translation of the SECOND (effective) definition of `Client.get_queue`
(spotify_api.py lines 413-421); the first definition at line 236 is
shadowed by it. -/
def get_queue (env : Env) : Eff PyVal := do
  validate_step env
  let queue_info ← liftE env.sp_queue
  let ct ← get_current_track env
  let queue_info ← liftE (pySetE queue_info "currently_playing" ct)
  let popped ← liftE (pyPopE queue_info "queue")
  let elems ← liftE (pyIterE popped.fst)
  liftE (pySetE popped.snd "queue" (PyVal.list (elems.map parse_track)))

/-- Translation of `Client.get_info` (spotify_api.py lines 244-298):
substring dispatch on the raw URI, typed lookup, and the kind-specific
info dict. -/
def get_info (env : Env) (item_uri : PyVal) : Eff PyVal := do
  let item_id ← liftE (extract_id_from_uri item_uri)
  let isTr ← liftE (pyInE "track" item_uri)
  if isTr then do
    let item ← liftE (env.sp_track (PyVal.str item_id))
    let nm ← liftE (pyIndexE item "name")
    let arts ← liftE (pyIndexE item "artists")
    let artElems ← liftE (pyIterE arts)
    let names ← liftE (artist_names artElems)
    let albOb ← liftE (pyIndexE item "album")
    let alb ← liftE (pyIndexE albOb "name")
    let dur ← liftE (pyIndexE item "duration_ms")
    let pop ← liftE (pyIndexE item "popularity")
    let uri ← liftE (pyIndexE item "uri")
    let hasEx ← liftE (pyInE "external_urls" item)
    let exu ←
      (if hasEx then do
        let e ← liftE (pyIndexE item "external_urls")
        liftE (pyIndexE e "spotify")
      else pure PyVal.none)
    pure (PyVal.dict [("type", PyVal.str "track"), ("name", nm), ("artists", PyVal.list names),
                      ("album", alb), ("duration_ms", dur), ("popularity", pop), ("uri", uri),
                      ("external_url", exu)])
  else do
    let isPl ← liftE (pyInE "playlist" item_uri)
    if isPl then do
      let item ← liftE (env.sp_playlist (PyVal.str item_id))
      let nm ← liftE (pyIndexE item "name")
      let ownerOb ← liftE (pyIndexE item "owner")
      let owner ← liftE (pyIndexE ownerOb "display_name")
      let desc ← liftE (pyIndexE item "description")
      let trOb ← liftE (pyIndexE item "tracks")
      let trTotal ← liftE (pyIndexE trOb "total")
      let folOb ← liftE (pyIndexE item "followers")
      let fol ← liftE (pyIndexE folOb "total")
      let uri ← liftE (pyIndexE item "uri")
      let hasEx ← liftE (pyInE "external_urls" item)
      let exu ←
        (if hasEx then do
          let e ← liftE (pyIndexE item "external_urls")
          liftE (pyIndexE e "spotify")
        else pure PyVal.none)
      pure (PyVal.dict [("type", PyVal.str "playlist"), ("name", nm), ("owner", owner),
                        ("description", desc), ("tracks_total", trTotal), ("followers", fol),
                        ("uri", uri), ("external_url", exu)])
    else do
      let isAl ← liftE (pyInE "album" item_uri)
      if isAl then do
        let item ← liftE (env.sp_album (PyVal.str item_id))
        let nm ← liftE (pyIndexE item "name")
        let arts ← liftE (pyIndexE item "artists")
        let artElems ← liftE (pyIterE arts)
        let names ← liftE (artist_names artElems)
        let rd ← liftE (pyIndexE item "release_date")
        let tt ← liftE (pyIndexE item "total_tracks")
        let pop ← liftE (pyIndexE item "popularity")
        let uri ← liftE (pyIndexE item "uri")
        let hasEx ← liftE (pyInE "external_urls" item)
        let exu ←
          (if hasEx then do
            let e ← liftE (pyIndexE item "external_urls")
            liftE (pyIndexE e "spotify")
          else pure PyVal.none)
        pure (PyVal.dict [("type", PyVal.str "album"), ("name", nm), ("artists", PyVal.list names),
                          ("release_date", rd), ("total_tracks", tt), ("popularity", pop),
                          ("uri", uri), ("external_url", exu)])
      else do
        let isAr ← liftE (pyInE "artist" item_uri)
        if isAr then do
          let item ← liftE (env.sp_artist (PyVal.str item_id))
          let nm ← liftE (pyIndexE item "name")
          let genres ← liftE (pyIndexE item "genres")
          let folOb ← liftE (pyIndexE item "followers")
          let fol ← liftE (pyIndexE folOb "total")
          let pop ← liftE (pyIndexE item "popularity")
          let uri ← liftE (pyIndexE item "uri")
          let hasEx ← liftE (pyInE "external_urls" item)
          let exu ←
            (if hasEx then do
              let e ← liftE (pyIndexE item "external_urls")
              liftE (pyIndexE e "spotify")
            else pure PyVal.none)
          pure (PyVal.dict [("type", PyVal.str "artist"), ("name", nm), ("genres", genres),
                            ("followers", fol), ("popularity", pop), ("uri", uri),
                            ("external_url", exu)])
        else raiseE (PyErr.exception ("Unsupported URI type: " ++ pyStr item_uri))

/-- Translation of `Client.get_current_user_playlists` (spotify_api.py
lines 439-447). -/
def get_current_user_playlists (env : Env) : Eff PyVal := do
  let playlists ← liftE env.sp_current_user_playlists
  if !truthy playlists then raiseE (PyErr.exception "No playlists found.")
  else do
    let items ← liftE (pyIndexE playlists "items")
    let elems ← liftE (pyIterE items)
    pure (PyVal.list (elems.map (fun p => parse_playlist p env.username)))

/-- Translation of the SECOND (effective) definition of
`Client.get_playlist_tracks` (spotify_api.py lines 449-459), which shadows
the paginating first definition: one `sp.playlist(playlist_id)` fetch, and
only the items embedded in that single response are normalized — no
continuation cursor is followed. -/
def get_playlist_tracks (env : Env) (playlist_id : PyVal) : Eff PyVal := do
  let _ ← ensure_username env
  let playlist ← liftE (env.sp_playlist playlist_id)
  if !truthy playlist then raiseE (PyErr.exception "No playlist found.")
  else do
    let trOb ← liftE (pyIndexE playlist "tracks")
    let items ← liftE (pyIndexE trOb "items")
    let elems ← liftE (pyIterE items)
    pure (PyVal.list (parse_tracks elems))

/-- Translation of `Client.add_tracks_to_playlist` (spotify_api.py lines
461-478): argument checks raise, but the remote call's failure is caught
and only logged. -/
def add_tracks_to_playlist (env : Env) (playlist_id track_ids : PyVal) : Eff PyVal := do
  let _ ← ensure_username env
  if !truthy playlist_id then raiseE (PyErr.exception "No playlist ID provided.")
  else if !truthy track_ids then raiseE (PyErr.exception "No track IDs provided.")
  else
    tryE
      (do
        let _ ← liftE (env.sp_playlist_add_items playlist_id track_ids PyVal.none)
        pure PyVal.none)
      (fun _ => pure PyVal.none)

/-- Translation of `Client.remove_tracks_from_playlist` (spotify_api.py
lines 480-496): argument checks raise, but the remote call's failure is
caught and only logged. -/
def remove_tracks_from_playlist (env : Env) (playlist_id track_ids : PyVal) : Eff PyVal := do
  let _ ← ensure_username env
  if !truthy playlist_id then raiseE (PyErr.exception "No playlist ID provided.")
  else if !truthy track_ids then raiseE (PyErr.exception "No track IDs provided.")
  else
    tryE
      (do
        let _ ← liftE (env.sp_playlist_remove_items playlist_id track_ids)
        pure PyVal.none)
      (fun _ => pure PyVal.none)

/-- Translation of `Client.change_playlist_details` (spotify_api.py lines
498-514): the playlist-id check raises, but the remote call's failure is
caught and only logged. -/
def change_playlist_details (env : Env) (playlist_id nm description : PyVal) : Eff PyVal := do
  let _ ← ensure_username env
  if !truthy playlist_id then raiseE (PyErr.exception "No playlist ID provided.")
  else
    tryE
      (do
        let _ ← liftE (env.sp_playlist_change_details playlist_id nm description)
        pure PyVal.none)
      (fun _ => pure PyVal.none)

/-! ## The Command Dispatcher (`server.py`) -/

/-- Translation of `create_error_response` (server.py lines 131-140): one
text content block carrying the JSON object with `error: true` and the
message.  A response is modelled as the list of its text blocks. -/
def create_error_response (message : String) : List String :=
  [jsonDumps (PyVal.dict [("error", PyVal.bool true), ("message", PyVal.str message)])]

/-- Translation of `get_artist_string` (server.py lines 540-559). -/
def get_artist_string (item : PyVal) : Except PyErr String := do
  let artists ← pyGetE item "artists" PyVal.none
  let artist ← pyGetE item "artist" PyVal.none
  let all_artists : List PyVal :=
    match artists with
    | PyVal.list xs => xs
    | _ =>
      match artist with
      | PyVal.str s => [PyVal.str s]
      | _ => []
  pyJoinE ", " all_artists

/-- Translation of `format_playback_response` (server.py lines 142-173). -/
def format_playback_response (env : Env) (spotify_uri : PyVal) : Eff String := do
  let curr_info ← get_info env spotify_uri
  let uri_parts ← liftE (pySplitE spotify_uri ':')
  let uri_type := if uri_parts.length == 3 then uri_parts.getD 1 "" else "unknown"
  if uri_type == "track" then do
    let title ← liftE (pyGetE curr_info "name" (PyVal.str "Unknown Track"))
    let arts ← liftE (get_artist_string curr_info)
    pure ("▶️ Now playing: \"" ++ pyStr title ++ "\" by " ++ arts ++ "\nURI: " ++ pyStr spotify_uri)
  else if uri_type == "album" then do
    let album ← liftE (pyGetE curr_info "name" (PyVal.str "Unknown Album"))
    let total ← liftE (pyGetE curr_info "total_tracks" (PyVal.str "N/A"))
    let arts ← liftE (get_artist_string curr_info)
    pure ("💿 Playing album: \"" ++ pyStr album ++ "\" by " ++ arts ++ "\nTracks: " ++
          pyStr total ++ "\nURI: " ++ pyStr spotify_uri)
  else if uri_type == "playlist" then do
    let nm ← liftE (pyGetE curr_info "name" (PyVal.str "Unknown Playlist"))
    let owner ← liftE (pyGetE curr_info "owner" (PyVal.str "Unknown Owner"))
    let total ← liftE (pyGetE curr_info "total_tracks" (PyVal.str "N/A"))
    let is_owner ← liftE (pyGetE curr_info "user_is_owner" (PyVal.bool false))
    let ownership := if truthy is_owner then "✅ You own this playlist" else "👤 Owned by someone else"
    pure ("📜 Playing playlist: \"" ++ pyStr nm ++ "\"\nOwner: " ++ pyStr owner ++ " | Tracks: " ++
          pyStr total ++ "\n" ++ ownership ++ "\nURI: " ++ pyStr spotify_uri)
  else if uri_type == "artist" then do
    let nm ← liftE (pyGetE curr_info "name" (PyVal.str "Unknown Artist"))
    pure ("🎤 Playing songs from artist: " ++ pyStr nm ++ "\nURI: " ++ pyStr spotify_uri)
  else
    pure ("▶️ Playback started for URI: " ++ pyStr spotify_uri ++ " (type: " ++ uri_type ++ ")")

/-- The `case "Playback"` arm of `handle_call_tool` (server.py lines
184-242).  The inner `match action:` has no default case, so an
unrecognized action falls off the end of the Python function and returns
`None`, modelled as `Option.none`. -/
def playback_branch (env : Env) (arguments : PyVal) : Eff (Option (List String)) := do
  let action ← liftE (pyGetE arguments "action" PyVal.none)
  if pyEqb action (PyVal.str "get") then do
    let curr_track ← get_current_track env
    if truthy curr_track then pure (Option.some [jsonDumps curr_track])
    else pure (Option.some ["No track playing."])
  else if pyEqb action (PyVal.str "start") then do
    let spotify_uri ← liftE (pyGetE arguments "spotify_uri" PyVal.none)
    let early ←
      (if truthy spotify_uri then do
        let sw ← liftE (pyStartswithE spotify_uri "spotify:track:")
        let track_id ←
          (if sw then do
            let parts ← liftE (pySplitE spotify_uri ':')
            pure (PyVal.str (parts.getLastD ""))
          else pure PyVal.none)
        if truthy track_id then do
          let ok ← liftE (is_valid_track env track_id)
          if !ok then
            pure (Option.some (create_error_response
              "Invalid or non-existent track URI. Please try another track."))
          else pure Option.none
        else pure Option.none
      else pure Option.none)
    match early with
    | Option.some resp => pure (Option.some resp)
    | Option.none => do
      let _ ← start_playback env spotify_uri
      let text ← format_playback_response env spotify_uri
      pure (Option.some [text])
  else if pyEqb action (PyVal.str "pause") then do
    let _ ← pause_playback env
    pure (Option.some ["Playback paused."])
  else if pyEqb action (PyVal.str "skip") then do
    let ns ← liftE (pyGetE arguments "num_skips" (PyVal.int 1))
    let n ← liftE (pyIntE ns)
    let _ ← skip_track env n
    pure (Option.some ["Skipped to next track."])
  else pure Option.none

/-- The per-item formatting loop of the `case "Search"` arm (server.py
lines 266-310), with `enumerate(..., start=1)`. -/
def search_format_items (qtype : PyVal) : Nat → List PyVal → Eff (List String)
  | _, [] => pure []
  | idx, item :: rest => do
    let line ←
      (if pyEqb qtype (PyVal.str "track") then do
        let title ← liftE (pyGetE item "name" (PyVal.str "Unknown Title"))
        let idv ← liftE (pyGetE item "id" (PyVal.str "N/A"))
        let arts ← liftE (get_artist_string item)
        pure (toString idx ++ ". \"" ++ pyStr title ++ "\" by " ++ arts ++
              "\n   URI: spotify:track:" ++ pyStr idv)
      else if pyEqb qtype (PyVal.str "artist") then do
        let nm ← liftE (pyGetE item "name" (PyVal.str "Unknown Artist"))
        let idv ← liftE (pyGetE item "id" (PyVal.str "N/A"))
        pure (toString idx ++ ". 👤 " ++ pyStr nm ++ "\n   URI: spotify:artist:" ++ pyStr idv)
      else if pyEqb qtype (PyVal.str "album") then do
        let title ← liftE (pyGetE item "name" (PyVal.str "Unknown Album"))
        let idv ← liftE (pyGetE item "id" (PyVal.str "N/A"))
        let arts ← liftE (get_artist_string item)
        pure (toString idx ++ ". 💿 \"" ++ pyStr title ++ "\" by " ++ arts ++
              "\n   URI: spotify:album:" ++ pyStr idv)
      else if pyEqb qtype (PyVal.str "playlist") then do
        let nm ← liftE (pyGetE item "name" (PyVal.str "Unknown Playlist"))
        let owner ← liftE (pyGetE item "owner" (PyVal.str "Unknown Owner"))
        let is_owner ← liftE (pyGetE item "user_is_owner" (PyVal.bool false))
        let total ← liftE (pyGetE item "total_tracks" (PyVal.str "N/A"))
        let idv ← liftE (pyGetE item "id" (PyVal.str "N/A"))
        let ownership := if truthy is_owner then "✅ You own this playlist" else "👤 Owned by someone else"
        pure (toString idx ++ ". 📜 \"" ++ pyStr nm ++ "\"\n   Owner: " ++ pyStr owner ++
              " | Tracks: " ++ pyStr total ++ "\n   " ++ ownership ++
              "\n   URI: spotify:playlist:" ++ pyStr idv)
      else pure (toString idx ++ ". Unsupported qtype: " ++ pyStr qtype))
    let tail ← search_format_items qtype (idx + 1) rest
    pure (line :: tail)

/-- The `case "Search"` arm of `handle_call_tool` (server.py lines
244-319): its own `try`/`except` converts any failure into the structured
error payload. -/
def search_branch (env : Env) (arguments : PyVal) : Eff (Option (List String)) :=
  tryE
    (do
      let query ← liftE (pyGetE arguments "query" (PyVal.str ""))
      let qtype ← liftE (pyGetE arguments "qtype" (PyVal.str "track"))
      let limit ← liftE (pyGetE arguments "limit" (PyVal.int 10))
      let search_results ← client_search env query qtype limit
      let result_items ← liftE (pyGetE search_results (pyStr qtype ++ "s") (PyVal.list []))
      if !truthy result_items then
        pure (Option.some (create_error_response ("No " ++ pyStr qtype ++ "s found for your query.")))
      else do
        let elems ← liftE (pyIterE result_items)
        let lines ← search_format_items qtype 1 elems
        pure (Option.some [joinLines (("🔍 Search Results for " ++ pyStr qtype ++ "s:") :: lines)]))
    (fun e =>
      pure (Option.some (create_error_response ("An error occurred during search: " ++ pyErrStr e))))

/-- The playlist/artist expansion loop of the `case "add"` arm (server.py
lines 357-361 and 400-405): enqueue `track.get(key)` for each track,
appending to `added_tracks` after each successful add; a failing add
unwinds out of the loop. -/
def queue_add_loop (env : Env) (key : String) : List PyVal → Eff (List PyVal)
  | [] => pure []
  | track :: rest => do
    let track_uri ← liftE (pyGetE track key PyVal.none)
    let _ ← add_to_queue env track_uri
    let tail ← queue_add_loop env key rest
    pure (track :: tail)

/-- The body of the `try` in the `case "add"` arm of the Queue tool
(server.py lines 331-421): substring dispatch on the URI, validation,
expansion, sequential enqueue and the success payload. -/
def queue_add_inner (env : Env) (spotify_uri : PyVal) : Eff (Option (List String)) := do
  let isTr ← liftE (pyInE "track" spotify_uri)
  if isTr then do
    let ok ← liftE (is_valid_track env spotify_uri)
    if !ok then
      pure (Option.some (create_error_response
        "Invalid or non-existent track URI. Please try another track."))
    else do
      let _ ← add_to_queue env spotify_uri
      let track_info ← get_info env spotify_uri
      pure (Option.some [jsonDumps (PyVal.dict
        [("status", PyVal.str "Track added to queue successfully"),
         ("track_details", track_info)])])
  else do
    let isPl ← liftE (pyInE "playlist" spotify_uri)
    if isPl then do
      let ok ← liftE (is_valid_playlist env spotify_uri)
      if !ok then pure (Option.some (create_error_response "Invalid or non-existent playlist URI."))
      else do
        let playlist_tracks ← get_playlist_tracks env spotify_uri
        let elems ← liftE (pyIterE playlist_tracks)
        let added ← queue_add_loop env "id" elems
        let playlist_info ← get_info env spotify_uri
        pure (Option.some [jsonDumps (PyVal.dict
          [("status", PyVal.str ("All " ++ toString added.length ++
             " tracks from playlist added to queue successfully")),
           ("playlist_details", playlist_info),
           ("tracks_added", PyVal.int (Int.ofNat added.length))])])
    else do
      let isAl ← liftE (pyInE "album" spotify_uri)
      if isAl then do
        let ok ← liftE (is_valid_album env spotify_uri)
        if !ok then pure (Option.some (create_error_response "Invalid or non-existent album URI."))
        else do
          let album_tracks ← liftE (get_album_tracks env spotify_uri)
          let elems ← liftE (pyIterE album_tracks)
          let added ← queue_add_loop env "uri" elems
          let album_info ← get_info env spotify_uri
          pure (Option.some [jsonDumps (PyVal.dict
            [("status", PyVal.str ("All " ++ toString added.length ++
               " tracks from album added to queue successfully")),
             ("album_details", album_info),
             ("tracks_added", PyVal.int (Int.ofNat added.length))])])
      else do
        let isAr ← liftE (pyInE "artist" spotify_uri)
        if isAr then do
          let ok ← liftE (is_valid_artist env spotify_uri)
          if !ok then pure (Option.some (create_error_response "Invalid or non-existent artist URI."))
          else do
            let artist_tracks ← liftE (get_artist_top_tracks env spotify_uri)
            let elems ← liftE (pyIterE artist_tracks)
            let added ← queue_add_loop env "uri" elems
            let artist_info ← get_info env spotify_uri
            pure (Option.some [jsonDumps (PyVal.dict
              [("status", PyVal.str ("Top " ++ toString added.length ++
                 " tracks from artist added to queue successfully")),
               ("artist_details", artist_info),
               ("tracks_added", PyVal.int (Int.ofNat added.length))])])
        else
          pure (Option.some (create_error_response
            "Unsupported URI type. Please provide a track, playlist, album, or artist URI."))

/-- The `case "Queue"` arm of `handle_call_tool` (server.py lines
321-435). -/
def queue_branch (env : Env) (arguments : PyVal) : Eff (Option (List String)) := do
  let action ← liftE (pyGetE arguments "action" PyVal.none)
  if pyEqb action (PyVal.str "add") then do
    let spotify_uri ← liftE (pyGetE arguments "spotify_uri" PyVal.none)
    if !truthy spotify_uri then
      pure (Option.some (create_error_response "spotify_uri is required for the 'add' action."))
    else
      tryE (queue_add_inner env spotify_uri)
        (fun e =>
          pure (Option.some (create_error_response ("Error adding to queue: " ++ pyErrStr e))))
  else if pyEqb action (PyVal.str "get") then do
    let q ← get_queue env
    pure (Option.some [jsonDumps q])
  else
    pure (Option.some (create_error_response
      ("Unknown queue action: " ++ pyStr action ++ ". Supported actions are: add and get.")))

/-- The `case "GetInfo"` arm of `handle_call_tool` (server.py lines
436-444). -/
def getinfo_branch (env : Env) (arguments : PyVal) : Eff (Option (List String)) := do
  let iu ← liftE (pyGetE arguments "item_uri" PyVal.none)
  let item_info ← get_info env iu
  pure (Option.some [jsonDumps item_info])

/-- The `case "Playlist"` arm of `handle_call_tool` (server.py lines
446-526). -/
def playlist_branch (env : Env) (arguments : PyVal) : Eff (Option (List String)) := do
  let action ← liftE (pyGetE arguments "action" PyVal.none)
  if pyEqb action (PyVal.str "get") then do
    let playlists ← get_current_user_playlists env
    pure (Option.some [jsonDumps playlists])
  else if pyEqb action (PyVal.str "get_tracks") then do
    let pid ← liftE (pyGetE arguments "playlist_id" PyVal.none)
    if !truthy pid then
      pure (Option.some (create_error_response "playlist_id is required for get_tracks action."))
    else do
      let pid2 ← liftE (pyGetE arguments "playlist_id" PyVal.none)
      let tracks ← get_playlist_tracks env pid2
      pure (Option.some [jsonDumps tracks])
  else if pyEqb action (PyVal.str "add_tracks") then do
    let track_ids ← liftE (pyGetE arguments "track_ids" PyVal.none)
    let parsed ←
      (match track_ids with
       | PyVal.str s =>
         (match env.json_loads s with
          | Except.ok v => pure (Option.some v)
          | Except.error _ => pure Option.none)
       | v => pure (Option.some v))
    match parsed with
    | Option.none =>
      pure (Option.some (create_error_response "track_ids must be a list or a valid JSON array."))
    | Option.some tids => do
      let pid ← liftE (pyGetE arguments "playlist_id" PyVal.none)
      let _ ← add_tracks_to_playlist env pid tids
      pure (Option.some ["Tracks added to playlist."])
  else if pyEqb action (PyVal.str "remove_tracks") then do
    let track_ids ← liftE (pyGetE arguments "track_ids" PyVal.none)
    let parsed ←
      (match track_ids with
       | PyVal.str s =>
         (match env.json_loads s with
          | Except.ok v => pure (Option.some v)
          | Except.error _ => pure Option.none)
       | v => pure (Option.some v))
    match parsed with
    | Option.none =>
      pure (Option.some (create_error_response "track_ids must be a list or a valid JSON array."))
    | Option.some tids => do
      let pid ← liftE (pyGetE arguments "playlist_id" PyVal.none)
      let _ ← remove_tracks_from_playlist env pid tids
      pure (Option.some ["Tracks removed from playlist."])
  else if pyEqb action (PyVal.str "change_details") then do
    let pid ← liftE (pyGetE arguments "playlist_id" PyVal.none)
    if !truthy pid then
      pure (Option.some (create_error_response "playlist_id is required for change_details action."))
    else do
      let nm ← liftE (pyGetE arguments "name" PyVal.none)
      let ds ← liftE (pyGetE arguments "description" PyVal.none)
      if !truthy nm && !truthy ds then
        pure (Option.some (create_error_response
          "At least one of name, description, public, or collaborative is required."))
      else do
        let pid2 ← liftE (pyGetE arguments "playlist_id" PyVal.none)
        let nm2 ← liftE (pyGetE arguments "name" PyVal.none)
        let ds2 ← liftE (pyGetE arguments "description" PyVal.none)
        let _ ← change_playlist_details env pid2 nm2 ds2
        pure (Option.some ["Playlist details changed."])
  else
    pure (Option.some (create_error_response
      ("Unknown playlist action: " ++ pyStr action ++
       ". Supported actions are: get, get_tracks, add_tracks, remove_tracks, change_details.")))

/-- The `match name[7:]` body inside the `try` of `handle_call_tool`
(server.py lines 183-530); the `case _` default returns the structured
unknown-tool error. -/
def dispatch_body (env : Env) (nm : String) (arguments : PyVal) : Eff (Option (List String)) :=
  let tool := strDrop 7 nm
  if tool = "Playback" then playback_branch env arguments
  else if tool = "Search" then search_branch env arguments
  else if tool = "Queue" then queue_branch env arguments
  else if tool = "GetInfo" then getinfo_branch env arguments
  else if tool = "Playlist" then playlist_branch env arguments
  else pure (Option.some (create_error_response ("Unknown tool: " ++ nm)))

/-- Translation of `handle_call_tool` (server.py lines 175-538).  The
`assert name[:7] == "Spotify"` sits BEFORE the `try`, so its
`AssertionError` escapes; inside the `try`, `except SpotifyException`
and `except Exception` convert every exception into the structured error
payload. -/
def handle_call_tool (env : Env) (nm : String) (arguments : PyVal) : Eff (Option (List String)) :=
  if strTake 7 nm = "Spotify" then
    tryE (dispatch_body env nm arguments)
      (fun e =>
        match e with
        | PyErr.spotifyException m =>
          pure (Option.some (create_error_response ("An error occurred with the Spotify Client: " ++ m)))
        | e2 =>
          pure (Option.some (create_error_response ("Unexpected error occurred: " ++ pyErrStr e2))))
  else raiseE (PyErr.assertionError ("Unknown tool: " ++ nm))

/-! ## A base environment for concrete instantiations -/

/-- A benign concrete environment: every collaborator call succeeds with a
minimal value.  Claim-specific environments override individual fields. -/
def envBase : Env :=
  { username := PyVal.str "user"
    spotify_country := Option.none
    auth := Except.ok ()
    current_user := Except.ok (PyVal.dict [("display_name", PyVal.str "user"), ("country", PyVal.str "US")])
    current_user_playing_track := Except.ok PyVal.none
    current_playback := Except.ok PyVal.none
    sp_track := fun _ => Except.ok (PyVal.dict [])
    sp_playlist := fun _ => Except.ok (PyVal.dict [])
    sp_album := fun _ => Except.ok (PyVal.dict [])
    sp_artist := fun _ => Except.ok (PyVal.dict [])
    sp_search := fun _ _ _ _ => Except.ok (PyVal.dict [])
    local_search := fun _ _ => LocalResult.requestError "connection refused"
    sp_playlist_items := fun _ => Except.ok []
    sp_album_tracks := fun _ => Except.ok []
    sp_artist_top_tracks := fun _ _ => Except.ok (PyVal.dict [("tracks", PyVal.list [])])
    sp_add_to_queue := fun _ _ => Except.ok PyVal.none
    sp_devices := Except.ok (PyVal.dict [("devices", PyVal.list [])])
    sp_queue := Except.ok (PyVal.dict [("queue", PyVal.list [])])
    sp_start_playback := fun _ _ _ => Except.ok PyVal.none
    sp_pause_playback := fun _ => Except.ok PyVal.none
    sp_next_track := Except.ok PyVal.none
    sp_current_user_playlists := Except.ok (PyVal.dict [("items", PyVal.list [])])
    sp_playlist_add_items := fun _ _ _ => Except.ok PyVal.none
    sp_playlist_remove_items := fun _ _ => Except.ok PyVal.none
    sp_playlist_change_details := fun _ _ _ => Except.ok PyVal.none
    json_loads := fun _ => Except.ok (PyVal.list []) }

/-! ## Claim-specific concrete environments -/

/-- A raw backend track object as served inside playlist pages. -/
def rawTrack (u : String) : PyVal :=
  PyVal.dict [("uri", PyVal.str u), ("name", PyVal.str u),
              ("artists", PyVal.list [PyVal.dict [("name", PyVal.str "a")]]),
              ("duration_ms", PyVal.int 1)]

/-- A playlist-item wrapper around a raw track. -/
def rawItem (u : String) : PyVal := PyVal.dict [("track", rawTrack u)]

/-- A playlist page with the given tracks and continuation cursor. -/
def pageOf (us : List String) (nxt : PyVal) : PyVal :=
  PyVal.dict [("items", PyVal.list (us.map rawItem)), ("next", nxt)]

/-- The track dict the paginating loop builds from `rawTrack u`. -/
def builtTrack (u : String) : PyVal :=
  PyVal.dict [("uri", PyVal.str u), ("name", PyVal.str u),
              ("artists", PyVal.list [PyVal.str "a"]),
              ("duration_ms", PyVal.int 1), ("album", PyVal.none)]

/-- A 3-page backend for playlist `pl1` with pages of sizes 2, 2, 1 and
cursor chaining (last page cursor none); the single-fetch playlist object
embeds only the first page. -/
def envC2 : Env :=
  { envBase with
    sp_playlist_items := fun pid =>
      if pyEqb pid (PyVal.str "pl1") then
        Except.ok [pageOf ["u1", "u2"] (PyVal.str "cursor2"),
                   pageOf ["u3", "u4"] (PyVal.str "cursor3"),
                   pageOf ["u5"] PyVal.none]
      else Except.error (PyErr.spotifyException "http status: 404")
    sp_playlist := fun pid =>
      if pyEqb pid (PyVal.str "pl1") then
        Except.ok (PyVal.dict [("tracks", pageOf ["u1", "u2"] (PyVal.str "cursor2"))])
      else Except.error (PyErr.spotifyException "http status: 404") }

/-- A backend whose queue-add endpoint fails when no device is specified
and succeeds against device `d0`, with exactly one listed device. -/
def envC3 : Env :=
  { envBase with
    sp_add_to_queue := fun _ dev =>
      if pyEqb dev PyVal.none then Except.error (PyErr.spotifyException "No active device")
      else Except.ok PyVal.none
    sp_devices := Except.ok (PyVal.dict [("devices", PyVal.list
      [PyVal.dict [("id", PyVal.str "d0"), ("name", PyVal.str "Desk"),
                   ("is_active", PyVal.bool false)]])]) }

/-- Like `envC3` but with an empty device listing. -/
def envC3empty : Env :=
  { envC3 with sp_devices := Except.ok (PyVal.dict [("devices", PyVal.list [])]) }

/-- One local search document. -/
def localDoc : PyVal := PyVal.dict [("name", PyVal.str "Local Song"), ("id", PyVal.str "L1")]

/-- A remote search response with one track. -/
def remoteResults : PyVal :=
  PyVal.dict [("tracks", PyVal.list [PyVal.dict [("name", PyVal.str "Remote Song"),
                                                 ("id", PyVal.str "R1")]])]

/-- Local endpoint answers with a dict carrying a non-empty `documents`
list; the remote search succeeds. -/
def envC4dict : Env :=
  { envBase with
    local_search := fun _ _ => LocalResult.response (PyVal.dict [("documents", PyVal.list [localDoc])])
    sp_search := fun _ _ _ _ => Except.ok remoteResults }

/-- Local endpoint answers with a bare non-empty JSON list of documents. -/
def envC4list : Env :=
  { envC4dict with local_search := fun _ _ => LocalResult.response (PyVal.list [localDoc]) }

/-- A raw album track object. -/
def rawAlbumTrack (u : String) : PyVal :=
  PyVal.dict [("uri", PyVal.str u), ("name", PyVal.str u),
              ("artists", PyVal.list [PyVal.dict [("name", PyVal.str "a")]]),
              ("duration_ms", PyVal.int 1), ("track_number", PyVal.int 1)]

/-- Album `alb1` has four tracks `t1..t4` on one page; the queue-add
endpoint fails exactly on `t3`. -/
def envC5 : Env :=
  { envBase with
    sp_album_tracks := fun aid =>
      if pyEqb aid (PyVal.str "alb1") then
        Except.ok [PyVal.dict [("items", PyVal.list
          [rawAlbumTrack "t1", rawAlbumTrack "t2", rawAlbumTrack "t3", rawAlbumTrack "t4"]),
          ("next", PyVal.none)]]
      else Except.error (PyErr.spotifyException "http status: 404")
    sp_add_to_queue := fun uri _ =>
      if pyEqb uri (PyVal.str "t3") then Except.error (PyErr.spotifyException "add failed")
      else Except.ok PyVal.none }

/-- A backend on which every track lookup fails. -/
def envTrackGone : Env :=
  { envBase with sp_track := fun _ => Except.error (PyErr.spotifyException "http status: 404") }

/-- A backend on which all three playlist-modification endpoints fail. -/
def envPlaylistOpsFail : Env :=
  { envBase with
    sp_playlist_add_items := fun _ _ _ => Except.error (PyErr.spotifyException "add rejected")
    sp_playlist_remove_items := fun _ _ => Except.error (PyErr.spotifyException "remove rejected")
    sp_playlist_change_details := fun _ _ _ => Except.error (PyErr.spotifyException "change rejected") }

/-- A backend whose remote search succeeds with zero track items. -/
def envEmptySearch : Env :=
  { envBase with sp_search := fun _ _ _ _ => Except.ok (PyVal.dict [("tracks", PyVal.list [])]) }

/-! ## Reduction lemmas for the effect monad -/

theorem bind_lift_ok {α β : Type} (a : α) (f : α → Eff β) :
    (liftE (Except.ok a) : Eff α) >>= f = f a := rfl

theorem bind_lift_error {α β : Type} (e : PyErr) (f : α → Eff β) :
    (liftE (Except.error e) : Eff α) >>= f = ⟨[], Except.error e⟩ := rfl

theorem bind_pure_eff {α β : Type} (a : α) (f : α → Eff β) :
    (pure a : Eff α) >>= f = f a := rfl

theorem bind_raise {α β : Type} (e : PyErr) (f : α → Eff β) :
    (raiseE e : Eff α) >>= f = ⟨[], Except.error e⟩ := rfl

theorem bind_effCall_ok {α β : Type} (ev : Event) (a : α) (f : α → Eff β) :
    (effCall ev (Except.ok a) : Eff α) >>= f = ⟨[ev] ++ (f a).log, (f a).out⟩ := rfl

theorem bind_effCall_error {α β : Type} (ev : Event) (e : PyErr) (f : α → Eff β) :
    (effCall ev (Except.error e) : Eff α) >>= f = ⟨[ev], Except.error e⟩ := rfl

theorem tryE_of_ok {α : Type} (x : Eff α) (h : PyErr → Eff α) (a : α)
    (hx : x.out = Except.ok a) : tryE x h = x := by
  unfold tryE
  rw [hx]

theorem tryE_of_error {α : Type} (x : Eff α) (h : PyErr → Eff α) (e : PyErr)
    (hx : x.out = Except.error e) :
    tryE x h = ⟨x.log ++ (h e).log, (h e).out⟩ := by
  unfold tryE
  rw [hx]

theorem str_append_ne_empty (a b : String) (h : a.data ≠ []) : a ++ b ≠ "" := by
  cases a with
  | mk da =>
    cases b with
    | mk db =>
      intro hab
      have h2 : da ++ db = [] := congrArg String.data hab
      have h3 := (List.append_eq_nil.mp h2).1
      exact h h3


/-! ## Claims -/

/-- C1 counterexample: the claim says an unrecognized tool name yields the
structured error rather than an escaping exception, but for a name without
the `Spotify` prefix the `assert` at server.py line 181 sits before the
`try` block, so the `AssertionError` escapes `handle_call_tool`. -/
theorem handle_call_tool_assert_escapes :
    handle_call_tool envBase "Ping" (PyVal.dict []) =
      Eff.mk [] (Except.error (PyErr.assertionError "Unknown tool: Ping")) := rfl

/-- C1 (amended): for every tool invocation whose name carries the
`Spotify` prefix, no exception escapes `handle_call_tool`; any exception
the dispatch body propagates is converted to exactly the structured
payload `create_error_response m` with a non-empty message; and a
prefixed name with an unrecognized remainder yields the structured
unknown-tool error.  (Names without the prefix instead fail the `assert`,
per the counterexample.) -/
theorem handle_call_tool_prefixed_dispatch (env : Env) (nm : String) (arguments : PyVal)
    (hpre : strTake 7 nm = "Spotify") :
    (∃ r, (handle_call_tool env nm arguments).out = Except.ok r) ∧
    (∀ e, (dispatch_body env nm arguments).out = Except.error e →
      ∃ m, m ≠ "" ∧
        handle_call_tool env nm arguments =
          Eff.mk (dispatch_body env nm arguments).log
            (Except.ok (Option.some (create_error_response m)))) ∧
    (strDrop 7 nm ∉ (["Playback", "Search", "Queue", "GetInfo", "Playlist"] : List String) →
      handle_call_tool env nm arguments =
        Eff.mk [] (Except.ok (Option.some (create_error_response ("Unknown tool: " ++ nm))))) := by
  have hunfold : handle_call_tool env nm arguments =
      tryE (dispatch_body env nm arguments)
        (fun e =>
          match e with
          | PyErr.spotifyException m =>
            pure (Option.some (create_error_response ("An error occurred with the Spotify Client: " ++ m)))
          | e2 =>
            pure (Option.some (create_error_response ("Unexpected error occurred: " ++ pyErrStr e2)))) := by
    unfold handle_call_tool
    rw [if_pos hpre]
  refine ⟨?_, ?_, ?_⟩
  · rw [hunfold]
    cases hd : (dispatch_body env nm arguments).out with
    | ok r =>
      refine ⟨r, ?_⟩
      rw [tryE_of_ok _ _ _ hd, hd]
    | error e =>
      rw [tryE_of_error _ _ _ hd]
      cases e with
      | spotifyException m => exact ⟨_, rfl⟩
      | exception m => exact ⟨_, rfl⟩
      | assertionError m => exact ⟨_, rfl⟩
  · intro e hd
    rw [hunfold, tryE_of_error _ _ _ hd]
    cases e with
    | spotifyException m =>
      refine ⟨"An error occurred with the Spotify Client: " ++ m, ?_, ?_⟩
      · exact str_append_ne_empty _ _ (by decide)
      · simp
        exact ⟨rfl, rfl⟩
    | exception m =>
      refine ⟨"Unexpected error occurred: " ++ pyErrStr (PyErr.exception m), ?_, ?_⟩
      · exact str_append_ne_empty _ _ (by decide)
      · simp
        exact ⟨rfl, rfl⟩
    | assertionError m =>
      refine ⟨"Unexpected error occurred: " ++ pyErrStr (PyErr.assertionError m), ?_, ?_⟩
      · exact str_append_ne_empty _ _ (by decide)
      · simp
        exact ⟨rfl, rfl⟩
  · intro hmem
    have h1 : strDrop 7 nm ≠ "Playback" := fun h => hmem (by simp [h])
    have h2 : strDrop 7 nm ≠ "Search" := fun h => hmem (by simp [h])
    have h3 : strDrop 7 nm ≠ "Queue" := fun h => hmem (by simp [h])
    have h4 : strDrop 7 nm ≠ "GetInfo" := fun h => hmem (by simp [h])
    have h5 : strDrop 7 nm ≠ "Playlist" := fun h => hmem (by simp [h])
    rw [hunfold]
    unfold dispatch_body
    rw [if_neg h1, if_neg h2, if_neg h3, if_neg h4, if_neg h5]
    rfl

/-- Witness for C1's amended theorem at a concrete prefixed input. -/
theorem handle_call_tool_prefixed_dispatch_witness :
    ∃ r, (handle_call_tool envBase "SpotifyPlayback" (PyVal.dict [])).out = Except.ok r :=
  (handle_call_tool_prefixed_dispatch envBase "SpotifyPlayback" (PyVal.dict []) rfl).1

/-- C2: on a 3-page backend with pages of sizes 2, 2, 1 chained by
cursors, the EFFECTIVE `get_playlist_tracks` (the second definition, line
449, which shadows the paginating one) returns only the 2 tracks embedded
in the single playlist fetch and never follows the continuation cursor,
while the shadowed paginating definition (line 140) returns all 5 tracks
in original order — the claimed behavior lives only in dead code. -/
theorem get_playlist_tracks_pagination_dead :
    get_playlist_tracks envC2 (PyVal.str "pl1") =
      Eff.mk [] (Except.ok (PyVal.list [parse_track (rawTrack "u1"), parse_track (rawTrack "u2")])) ∧
    get_playlist_tracks_shadowed envC2 (PyVal.str "pl1") =
      Except.ok [builtTrack "u1", builtTrack "u2", builtTrack "u3", builtTrack "u4", builtTrack "u5"] :=
  ⟨rfl, rfl⟩

/-- C3: on a backend that rejects a queue add without a device and accepts
one against the single listed device `d0`, the EFFECTIVE `add_to_queue`
(the second definition, line 405, which shadows the retrying one) makes
exactly one attempt, with no device, and propagates the failure; the
shadowed first definition (line 219) implements the claimed policy —
retry once against the first listed device, no third attempt — and fails
with the no-active-device error when the listing is empty. -/
theorem add_to_queue_retry_dead :
    add_to_queue envC3 (PyVal.str "spotify:track:t1") =
      Eff.mk [Event.addToQueueCall (PyVal.str "spotify:track:t1") PyVal.none]
        (Except.error (PyErr.spotifyException "No active device")) ∧
    add_to_queue_shadowed envC3 (PyVal.str "spotify:track:t1") =
      Eff.mk [Event.addToQueueCall (PyVal.str "spotify:track:t1") PyVal.none,
              Event.addToQueueCall (PyVal.str "spotify:track:t1") (PyVal.str "d0")]
        (Except.ok true) ∧
    add_to_queue_shadowed envC3empty (PyVal.str "spotify:track:t1") =
      Eff.mk [Event.addToQueueCall (PyVal.str "spotify:track:t1") PyVal.none]
        (Except.error (PyErr.exception
          "No active Spotify device found. Please open Spotify on a device first.")) :=
  ⟨rfl, rfl, rfl⟩

/-- C4: when the local endpoint answers with a dict whose `documents`
list is non-empty, `smart_search` still consults the remote API (the
`isinstance(local_data, list)` guard excludes every dict response) and
returns the remotely sourced results; and when the endpoint answers with
a bare non-empty JSON list, `local_data.get("documents", [])` raises
`AttributeError` — the claimed local short-circuit can never happen. -/
theorem smart_search_local_shortcircuit_dead :
    smart_search envC4dict (PyVal.str "user") (PyVal.str "x") (PyVal.str "track") (PyVal.int 10) =
      Eff.mk [Event.remoteSearchCall (PyVal.str "x") (PyVal.str "track")]
        (Except.ok (parse_search_results remoteResults (PyVal.str "track") (PyVal.str "user"))) ∧
    smart_search envC4list (PyVal.str "user") (PyVal.str "x") (PyVal.str "track") (PyVal.int 10) =
      Eff.mk [] (Except.error (PyErr.exception
        "AttributeError: 'list' object has no attribute 'get'")) :=
  ⟨rfl, rfl⟩

/-- C5: enqueueing the 4-track album `alb1` whose third add call fails:
the trace shows two successful adds (`t1`, `t2`) and the failing third
attempt, after which the dispatcher returns only the bare error payload —
the count of tracks already added is not reported anywhere. -/
theorem queue_album_partial_count_lost :
    handle_call_tool envC5 "SpotifyQueue"
      (PyVal.dict [("action", PyVal.str "add"), ("spotify_uri", PyVal.str "spotify:album:alb1")]) =
      Eff.mk [Event.addToQueueCall (PyVal.str "t1") PyVal.none,
              Event.addToQueueCall (PyVal.str "t2") PyVal.none,
              Event.addToQueueCall (PyVal.str "t3") PyVal.none]
        (Except.ok (Option.some (create_error_response "Error adding to queue: add failed"))) ∧
    envC5.sp_add_to_queue (PyVal.str "t1") PyVal.none = Except.ok PyVal.none ∧
    envC5.sp_add_to_queue (PyVal.str "t2") PyVal.none = Except.ok PyVal.none ∧
    envC5.sp_add_to_queue (PyVal.str "t3") PyVal.none =
      Except.error (PyErr.spotifyException "add failed") :=
  ⟨rfl, rfl, rfl, rfl⟩

/-- C6: for every backend behavior and every input URI, each of the four
validators returns a boolean rather than propagating any exception, and
returns `true` exactly when the backend lookup attempted inside its `try`
block succeeds (so `false` on network, not-found or auth errors alike). -/
theorem validators_never_throw (env : Env) (v : PyVal) :
    ((∃ b, is_valid_track env v = Except.ok b) ∧
      (is_valid_track env v = Except.ok true ↔ ∃ r, is_valid_track_attempt env v = Except.ok r)) ∧
    ((∃ b, is_valid_album env v = Except.ok b) ∧
      (is_valid_album env v = Except.ok true ↔ ∃ r, is_valid_album_attempt env v = Except.ok r)) ∧
    ((∃ b, is_valid_playlist env v = Except.ok b) ∧
      (is_valid_playlist env v = Except.ok true ↔ ∃ r, is_valid_playlist_attempt env v = Except.ok r)) ∧
    ((∃ b, is_valid_artist env v = Except.ok b) ∧
      (is_valid_artist env v = Except.ok true ↔ ∃ r, is_valid_artist_attempt env v = Except.ok r)) := by
  refine ⟨⟨?_, ?_⟩, ⟨?_, ?_⟩, ⟨?_, ?_⟩, ⟨?_, ?_⟩⟩
  · unfold is_valid_track
    cases hx : is_valid_track_attempt env v <;> simp
  · unfold is_valid_track
    cases hx : is_valid_track_attempt env v <;> simp [hx]
  · unfold is_valid_album
    cases hx : is_valid_album_attempt env v <;> simp
  · unfold is_valid_album
    cases hx : is_valid_album_attempt env v <;> simp [hx]
  · unfold is_valid_playlist
    cases hx : is_valid_playlist_attempt env v <;> simp
  · unfold is_valid_playlist
    cases hx : is_valid_playlist_attempt env v <;> simp [hx]
  · unfold is_valid_artist
    cases hx : is_valid_artist_attempt env v <;> simp
  · unfold is_valid_artist
    cases hx : is_valid_artist_attempt env v <;> simp [hx]

/-- C7: for every backend and every supplied track URI (a non-empty
string with the `spotify:track:` prefix and a non-empty final segment)
whose validation returns false, the Playback-start dispatch returns
exactly the structured error "Invalid or non-existent track URI. Please
try another track."; the empty event trace in the conclusion shows that
the `sp.start_playback` call (which would be recorded as a
`startPlaybackCall` event) is never issued. -/
theorem playback_start_invalid_track (env : Env) (s tid : String)
    (hs : s ≠ "")
    (hsw : strStartsWith s "spotify:track:" = true)
    (hlast : (pySplit s ':').getLastD "" = tid)
    (htid : tid ≠ "")
    (hval : is_valid_track env (PyVal.str tid) = Except.ok false) :
    handle_call_tool env "SpotifyPlayback"
      (PyVal.dict [("action", PyVal.str "start"), ("spotify_uri", PyVal.str s)]) =
      Eff.mk [] (Except.ok (Option.some (create_error_response
        "Invalid or non-existent track URI. Please try another track."))) := by
  have h0 : handle_call_tool env "SpotifyPlayback"
      (PyVal.dict [("action", PyVal.str "start"), ("spotify_uri", PyVal.str s)]) =
      tryE (playback_branch env
        (PyVal.dict [("action", PyVal.str "start"), ("spotify_uri", PyVal.str s)]))
        (fun e =>
          match e with
          | PyErr.spotifyException m =>
            pure (Option.some (create_error_response ("An error occurred with the Spotify Client: " ++ m)))
          | e2 =>
            pure (Option.some (create_error_response ("Unexpected error occurred: " ++ pyErrStr e2)))) := rfl
  rw [h0]
  have hb : playback_branch env
      (PyVal.dict [("action", PyVal.str "start"), ("spotify_uri", PyVal.str s)]) =
      Eff.mk [] (Except.ok (Option.some (create_error_response
        "Invalid or non-existent track URI. Please try another track."))) := by
    simp only [playback_branch, pyGetE, dictLookup, bind_lift_ok, pyEqb, pyStartswithE, pySplitE,
      truthy, String.reduceBEq, String.reduceEq, reduceIte, Option.getD, hs, hsw, htid,
      hval, hlast, bne_iff_ne, ne_eq, not_false_eq_true, if_true, Bool.not_false, Bool.not_true,
      Bool.false_eq_true, if_false, bind_pure_eff]
    rfl
  rw [hb]
  rfl

/-- Witness for C7 at `spotify:track:ABC` on a backend whose track lookup
fails. -/
theorem playback_start_invalid_track_witness :
    handle_call_tool envTrackGone "SpotifyPlayback"
      (PyVal.dict [("action", PyVal.str "start"), ("spotify_uri", PyVal.str "spotify:track:ABC")]) =
      Eff.mk [] (Except.ok (Option.some (create_error_response
        "Invalid or non-existent track URI. Please try another track."))) :=
  playback_start_invalid_track envTrackGone "spotify:track:ABC" "ABC"
    (by decide) rfl rfl (by decide) rfl

/-- C8: whenever the request to the local search endpoint fails (timeout,
connection error or non-2xx — any `RequestException`), `smart_search`
swallows the failure and returns exactly the remotely sourced result: the
remote search is consulted (the single `remoteSearchCall` event) and its
normalized response, or its own error, is all the caller sees — nothing
of the local failure is surfaced. -/
theorem smart_search_local_failure_swallowed (env : Env) (uname query qtype limit : PyVal)
    (m : String) (hlocal : env.local_search query qtype = LocalResult.requestError m) :
    smart_search env uname query qtype limit =
      Eff.mk [Event.remoteSearchCall query qtype]
        ((env.sp_search query qtype limit env.spotify_country).map
          (fun v => parse_search_results v qtype uname)) := by
  unfold smart_search
  rw [hlocal]
  cases hs : env.sp_search query qtype limit env.spotify_country <;> rfl

/-- Witness for C8 on the base backend, whose local endpoint always fails
with a connection error. -/
theorem smart_search_local_failure_swallowed_witness :
    smart_search envBase (PyVal.str "u") (PyVal.str "x") (PyVal.str "track") (PyVal.int 5) =
      Eff.mk [Event.remoteSearchCall (PyVal.str "x") (PyVal.str "track")]
        ((envBase.sp_search (PyVal.str "x") (PyVal.str "track") (PyVal.int 5)
            envBase.spotify_country).map
          (fun v => parse_search_results v (PyVal.str "track") (PyVal.str "u"))) :=
  smart_search_local_failure_swallowed envBase (PyVal.str "u") (PyVal.str "x") (PyVal.str "track")
    (PyVal.int 5) "connection refused" rfl

theorem bind_mk_ok {α β : Type} (lg : List Event) (a : α) (f : α → Eff β) :
    (Eff.mk lg (Except.ok a) : Eff α) >>= f = ⟨lg ++ (f a).log, (f a).out⟩ := rfl

theorem pure_log {α : Type} (a : α) : (pure a : Eff α).log = [] := rfl

theorem pure_out {α : Type} (a : α) : (pure a : Eff α).out = Except.ok a := rfl

/-- C9: for every backend and valid arguments (cached username, non-empty
playlist id, non-empty track list, non-empty name), the Playlist tool's
`add_tracks`, `remove_tracks` and `change_details` actions return their
fixed success message even though the remote call fails: the client
methods catch the exception internally, so no remote failure of these
operations ever produces an error response. -/
theorem playlist_ops_swallow_remote_failures (env : Env) (u pid nm : String)
    (tids : List PyVal) (e1 e2 e3 : PyErr)
    (husr : env.username = PyVal.str u)
    (hpid : pid ≠ "")
    (htids : tids ≠ [])
    (hnm : nm ≠ "")
    (hadd : env.sp_playlist_add_items (PyVal.str pid) (PyVal.list tids) PyVal.none = Except.error e1)
    (hrem : env.sp_playlist_remove_items (PyVal.str pid) (PyVal.list tids) = Except.error e2)
    (hchg : env.sp_playlist_change_details (PyVal.str pid) (PyVal.str nm) PyVal.none = Except.error e3) :
    handle_call_tool env "SpotifyPlaylist"
      (PyVal.dict [("action", PyVal.str "add_tracks"), ("playlist_id", PyVal.str pid),
                   ("track_ids", PyVal.list tids)]) =
      Eff.mk [] (Except.ok (Option.some ["Tracks added to playlist."])) ∧
    handle_call_tool env "SpotifyPlaylist"
      (PyVal.dict [("action", PyVal.str "remove_tracks"), ("playlist_id", PyVal.str pid),
                   ("track_ids", PyVal.list tids)]) =
      Eff.mk [] (Except.ok (Option.some ["Tracks removed from playlist."])) ∧
    handle_call_tool env "SpotifyPlaylist"
      (PyVal.dict [("action", PyVal.str "change_details"), ("playlist_id", PyVal.str pid),
                   ("name", PyVal.str nm)]) =
      Eff.mk [] (Except.ok (Option.some ["Playlist details changed."])) := by
  have htids' : tids.isEmpty = false := by
    cases tids with
    | nil => exact absurd rfl htids
    | cons a l => rfl
  have hpid' : (pid != "") = true := bne_iff_ne.mpr hpid
  have hnm' : (nm != "") = true := bne_iff_ne.mpr hnm
  refine ⟨?_, ?_, ?_⟩
  · have h0 : handle_call_tool env "SpotifyPlaylist"
        (PyVal.dict [("action", PyVal.str "add_tracks"), ("playlist_id", PyVal.str pid),
                     ("track_ids", PyVal.list tids)]) =
        tryE (playlist_branch env
          (PyVal.dict [("action", PyVal.str "add_tracks"), ("playlist_id", PyVal.str pid),
                       ("track_ids", PyVal.list tids)]))
          (fun e =>
            match e with
            | PyErr.spotifyException m =>
              pure (Option.some (create_error_response ("An error occurred with the Spotify Client: " ++ m)))
            | e2 =>
              pure (Option.some (create_error_response ("Unexpected error occurred: " ++ pyErrStr e2)))) := rfl
    have hb : playlist_branch env
        (PyVal.dict [("action", PyVal.str "add_tracks"), ("playlist_id", PyVal.str pid),
                     ("track_ids", PyVal.list tids)]) =
        Eff.mk [] (Except.ok (Option.some ["Tracks added to playlist."])) := by
      simp only [playlist_branch, add_tracks_to_playlist, ensure_username, pyGetE, dictLookup,
        bind_lift_ok, bind_lift_error, bind_pure_eff, pyEqb, truthy, tryE, husr, hpid', htids',
        hadd, String.reduceBEq, String.reduceEq, reduceIte, Option.getD, Bool.not_false,
        Bool.not_true, Bool.false_eq_true, Bool.true_eq_false, if_true, if_false]
      rfl
    rw [h0, hb]
    rfl
  · have h0 : handle_call_tool env "SpotifyPlaylist"
        (PyVal.dict [("action", PyVal.str "remove_tracks"), ("playlist_id", PyVal.str pid),
                     ("track_ids", PyVal.list tids)]) =
        tryE (playlist_branch env
          (PyVal.dict [("action", PyVal.str "remove_tracks"), ("playlist_id", PyVal.str pid),
                       ("track_ids", PyVal.list tids)]))
          (fun e =>
            match e with
            | PyErr.spotifyException m =>
              pure (Option.some (create_error_response ("An error occurred with the Spotify Client: " ++ m)))
            | e2 =>
              pure (Option.some (create_error_response ("Unexpected error occurred: " ++ pyErrStr e2)))) := rfl
    have hb : playlist_branch env
        (PyVal.dict [("action", PyVal.str "remove_tracks"), ("playlist_id", PyVal.str pid),
                     ("track_ids", PyVal.list tids)]) =
        Eff.mk [] (Except.ok (Option.some ["Tracks removed from playlist."])) := by
      simp only [playlist_branch, remove_tracks_from_playlist, ensure_username, pyGetE, dictLookup,
        bind_lift_ok, bind_lift_error, bind_pure_eff, pyEqb, truthy, tryE, husr, hpid', htids',
        hrem, String.reduceBEq, String.reduceEq, reduceIte, Option.getD, Bool.not_false,
        Bool.not_true, Bool.false_eq_true, Bool.true_eq_false, if_true, if_false]
      rfl
    rw [h0, hb]
    rfl
  · have h0 : handle_call_tool env "SpotifyPlaylist"
        (PyVal.dict [("action", PyVal.str "change_details"), ("playlist_id", PyVal.str pid),
                     ("name", PyVal.str nm)]) =
        tryE (playlist_branch env
          (PyVal.dict [("action", PyVal.str "change_details"), ("playlist_id", PyVal.str pid),
                       ("name", PyVal.str nm)]))
          (fun e =>
            match e with
            | PyErr.spotifyException m =>
              pure (Option.some (create_error_response ("An error occurred with the Spotify Client: " ++ m)))
            | e2 =>
              pure (Option.some (create_error_response ("Unexpected error occurred: " ++ pyErrStr e2)))) := rfl
    have hb : playlist_branch env
        (PyVal.dict [("action", PyVal.str "change_details"), ("playlist_id", PyVal.str pid),
                     ("name", PyVal.str nm)]) =
        Eff.mk [] (Except.ok (Option.some ["Playlist details changed."])) := by
      simp only [playlist_branch, change_playlist_details, ensure_username, pyGetE, dictLookup,
        bind_lift_ok, bind_lift_error, bind_pure_eff, pyEqb, truthy, tryE, husr, hpid', hnm',
        hchg, String.reduceBEq, String.reduceEq, reduceIte, Option.getD, Bool.not_false,
        Bool.not_true, Bool.false_eq_true, Bool.true_eq_false, if_true, if_false, Bool.false_and,
        Bool.true_and, Bool.and_false, Bool.and_true]
      rfl
    rw [h0, hb]
    rfl

/-- Witness for C9 on a backend where all three playlist endpoints
reject the call. -/
theorem playlist_ops_swallow_remote_failures_witness :
    handle_call_tool envPlaylistOpsFail "SpotifyPlaylist"
      (PyVal.dict [("action", PyVal.str "add_tracks"), ("playlist_id", PyVal.str "p1"),
                   ("track_ids", PyVal.list [PyVal.str "t1"])]) =
      Eff.mk [] (Except.ok (Option.some ["Tracks added to playlist."])) :=
  (playlist_ops_swallow_remote_failures envPlaylistOpsFail "user" "p1" "New" [PyVal.str "t1"]
    (PyErr.spotifyException "add rejected") (PyErr.spotifyException "remove rejected")
    (PyErr.spotifyException "change rejected") rfl (by decide) (List.cons_ne_nil _ _)
    (by decide) rfl rfl rfl).1

/-- C10: for every backend and every Search call that completes with a
normalized result set (a dict) whose entry under `qtype ++ "s"` is absent
or empty, the dispatcher returns the error-shaped payload
`No <qtype>s found for your query.` rather than a success response. -/
theorem search_empty_results_error (env : Env) (q t : String) (lim : PyVal)
    (lg : List Event) (kvs : List (String × PyVal))
    (hsr : client_search env (PyVal.str q) (PyVal.str t) lim = Eff.mk lg (Except.ok (PyVal.dict kvs)))
    (hemp : truthy ((dictLookup kvs (t ++ "s")).getD (PyVal.list [])) = false) :
    handle_call_tool env "SpotifySearch"
      (PyVal.dict [("query", PyVal.str q), ("qtype", PyVal.str t), ("limit", lim)]) =
      Eff.mk lg (Except.ok (Option.some (create_error_response
        ("No " ++ t ++ "s found for your query.")))) := by
  have h0 : handle_call_tool env "SpotifySearch"
      (PyVal.dict [("query", PyVal.str q), ("qtype", PyVal.str t), ("limit", lim)]) =
      tryE (search_branch env
        (PyVal.dict [("query", PyVal.str q), ("qtype", PyVal.str t), ("limit", lim)]))
        (fun e =>
          match e with
          | PyErr.spotifyException m =>
            pure (Option.some (create_error_response ("An error occurred with the Spotify Client: " ++ m)))
          | e2 =>
            pure (Option.some (create_error_response ("Unexpected error occurred: " ++ pyErrStr e2)))) := rfl
  have hb : search_branch env
      (PyVal.dict [("query", PyVal.str q), ("qtype", PyVal.str t), ("limit", lim)]) =
      Eff.mk lg (Except.ok (Option.some (create_error_response
        ("No " ++ t ++ "s found for your query.")))) := by
    simp only [search_branch, pyGetE, dictLookup, bind_lift_ok, bind_mk_ok, bind_pure_eff,
      pyStr, hsr, hemp, tryE, String.reduceBEq, String.reduceEq, reduceIte, Option.getD_some,
      Bool.not_false, Bool.not_true, Bool.false_eq_true, if_true, if_false, pure_log, pure_out,
      List.append_nil]
  rw [h0, hb]
  rfl

/-- Witness for C10 on a backend whose remote search returns an empty
track list. -/
theorem search_empty_results_error_witness :
    handle_call_tool envEmptySearch "SpotifySearch"
      (PyVal.dict [("query", PyVal.str "x"), ("qtype", PyVal.str "track"),
                   ("limit", PyVal.int 5)]) =
      Eff.mk [Event.remoteSearchCall (PyVal.str "x") (PyVal.str "track")]
        (Except.ok (Option.some (create_error_response
          ("No " ++ "track" ++ "s found for your query.")))) :=
  search_empty_results_error envEmptySearch "x" "track" (PyVal.int 5)
    [Event.remoteSearchCall (PyVal.str "x") (PyVal.str "track")]
    [("tracks", PyVal.list [])] rfl rfl
